import Mathlib

/-!
Verification development for the technology-stack detector
(`src/lib/analyzer/tech-stack-detector.js` of the `vibe-cli` repository).

The detector is embedded shallowly:

* The filesystem is abstracted as an `FS` record of total probes
  (`fileExists`, `dirExists`, `readFile`, `globs`), mirroring the source's
  design rule that every probe is total and failures degrade to "no
  evidence".  All paths are relative to the project root (the source
  prefixes every probe with `path.join(projectPath, ...)`).
* `package.json` JSON parsing and the regular-expression extraction of
  dependencies from `pyproject.toml` are abstracted as oracle fields of
  `FS` (`packageJson`, `pyprojectDeps`); the `requirements.txt` extraction
  is embedded in full.  No claim depends on the internals of either parser.
* JavaScript numbers only ever hold the source's decimal confidence
  constants, so they are modelled exactly as rationals (`mkRat n d`
  transcribes the literal `n/d`).
* Absent optional JS object fields on detector specs are modelled as `[]`
  (respectively `none`); the source never distinguishes an absent list
  field from an empty one on any path it executes.
* String scans (`String.prototype.includes`, `startsWith`, `split`,
  `trim`) are reimplemented structurally over character lists so that all
  definitions evaluate by kernel reduction.
-/

/-! ## String utilities (models of the JS string operations used) -/

/-- Model of `a.startsWith(pat)` on character lists. -/
def leadsWith : List Char → List Char → Bool
  | [], _ => true
  | _ :: _, [] => false
  | a :: as, b :: bs => a == b && leadsWith as bs

/-- Substring occurrence on character lists. -/
def subIn (pat : List Char) : List Char → Bool
  | [] => leadsWith pat []
  | s :: rest => leadsWith pat (s :: rest) || subIn pat rest

/-- Model of JS `s.includes(pat)`. -/
def strContains (s pat : String) : Bool := subIn pat.toList s.toList

/-- Model of JS `s.startsWith(pat)`. -/
def strStarts (s pat : String) : Bool := leadsWith pat.toList s.toList

/-- Split a character list at every occurrence of `c` (model of JS
`s.split(c)` for a single-character separator). -/
def splitCharList (c : Char) : List Char → List (List Char)
  | [] => [[]]
  | x :: xs =>
    let r := splitCharList c xs
    if x == c then [] :: r
    else match r with
      | [] => [[x]]
      | h :: t => (x :: h) :: t

/-- Model of JS `content.split('\n')`. -/
def splitLines (s : String) : List String :=
  (splitCharList '\n' s.toList).map String.mk

/-- Model of JS `s.trim()` (ASCII whitespace suffices for the scanned files). -/
def trimStr (s : String) : String :=
  String.mk (((s.toList.dropWhile Char.isWhitespace).reverse.dropWhile
    Char.isWhitespace).reverse)

/-- Take characters until the first occurrence of any stop character
(model of `s.split(regexCharClass)[0]`). -/
def takeUntilAny (stops : List Char) (l : List Char) : List Char :=
  l.takeWhile (fun c => !stops.contains c)

/-- Model of JS `s.split(' ')[0]`. -/
def firstWord (s : String) : String :=
  String.mk (takeUntilAny [' '] s.toList)

/-- Deduplication keeping first occurrences (model of `[...new Set(xs)]`). -/
def dedupAux (seen : List String) : List String → List String
  | [] => []
  | x :: xs =>
    if seen.contains x then dedupAux seen xs
    else x :: dedupAux (x :: seen) xs

/-- Deduplication keeping first occurrences. -/
def dedupFirst (l : List String) : List String := dedupAux [] l

/-- Model of the JS regex word character class `\w`. -/
def isWordChar (c : Char) : Bool := c.isAlphanum || c == '_'

/-- One line matching the microservice-count regex `^\s*\w+:\s*$`. -/
def isServiceLine (l : String) : Bool :=
  let rest := l.toList.dropWhile Char.isWhitespace
  let word := rest.takeWhile isWordChar
  let after := rest.drop word.length
  !word.isEmpty && after.headD ' ' == ':' && (after.drop 1).all Char.isWhitespace

/-- Count of compose-service-looking lines
(`(content.match(/^\s*\w+:\s*$/gm) || []).length`). -/
def countServiceLines (content : String) : Nat :=
  (splitLines content).countP isServiceLine

/-! ## Data model -/

/-- The relevant parts of a parsed `package.json`.  Dependency maps are
modelled by their key sets (every present version value is truthy);
`scripts` is the list of script values when the `scripts` object is
present; `bin` / `main` record presence of truthy `bin` / `main` fields;
`topKeys` lists other truthy top-level keys (used for the in-manifest
`jest` configuration check). -/
structure PackageData where
  dependencies : List String := []
  devDependencies : List String := []
  scripts : Option (List String) := none
  bin : Bool := false
  main : Bool := false
  topKeys : List String := []
deriving DecidableEq, Repr

/-- The filesystem abstraction: total probes relative to the project root,
plus the two parsing oracles (see the module docstring). -/
structure FS where
  fileExists : String → Bool
  dirExists : String → Bool
  readFile : String → Option String
  globs : String → List String
  packageJson : Option PackageData
  pyprojectDeps : List String

/-- Model of `findFiles(projectPath, pattern, limit)`: the glob search is
the `FS.globs` oracle, truncated to `limit` matches (`limit = 0` models the
falsy-limit branch returning everything). -/
def findFiles (fs : FS) (pat : String) (limit : Nat) : List String :=
  if limit = 0 then fs.globs pat else (fs.globs pat).take limit

/-- The per-detector evidence bag.  The source builds a fresh plain object
per detector invocation whose fields are a subset of these; fields a
category does not populate stay at their defaults, matching the source's
guarantee that evidence fields are always populated lists.  The source
field `imports` is named `codeImports` here. -/
structure Evidence where
  dependencies : List String := []
  devDependencies : List String := []
  files : List String := []
  configs : List String := []
  codePatterns : List String := []
  relatedPackages : List String := []
  indicators : List String := []
  scripts : List String := []
  codeImports : List String := []
  directories : List String := []
  connectionStrings : List String := []
  dockerServices : List String := []
  envVars : List String := []
  packageIndicators : List String := []
  packageJsonConfig : Bool := false
  patterns : List String := []
  isBackendOnly : Bool := false
  isFrontendOnly : Bool := false
deriving DecidableEq, Repr

/-- A detector specification: its evidence requirements plus the pure
scoring function.  Data fields of the source that no pipeline code ever
reads (`requiredForConfidence`, `projectFiles`, `componentPatterns`,
`implies`, `setupFiles`, `testDirectory`, `type`, `usage`,
`connectionStrings` of language specs, …) are noted in comments at the
detectors that declare them.  The source field `imports` is named
`codeImports` here. -/
structure Detector where
  patterns : List String := []
  dependencies : List String := []
  devDependencies : List String := []
  files : List String := []
  configs : List String := []
  codePatterns : List String := []
  relatedPackages : List String := []
  indicators : List String := []
  scripts : List String := []
  codeImports : List String := []
  directories : List String := []
  connectionStrings : List String := []
  dockerServices : List String := []
  envVars : List String := []
  packageIndicators : List String := []
  packageJsonConfig : Option String := none
  exclusiveWith : List String := []
  confidence : Evidence → ℚ

/-- A scored detection `{ name, confidence, evidence }`. -/
structure Detection where
  name : String
  confidence : ℚ
  evidence : Evidence
deriving DecidableEq, Repr

/-- The acceptance check `confidence >= 0.7` applied by every category. -/
def accepts (c : ℚ) : Bool := decide (mkRat 7 10 ≤ c)

/-! ## Detector registries (translated field-for-field from
`initializeDetectors`) -/

/-- Language detectors.  `requiredForConfidence` (javascript) and
`projectFiles` (java) are dead data in the source: no pipeline code reads
them. -/
def languageDetectors : List (String × Detector) :=
  [ ("javascript",
     { patterns := ["*.js", "*.mjs", "*.cjs"]
       configs := ["package.json", ".npmrc"]
       confidence := fun e =>
         if "package.json" ∈ e.configs then 1
         else if 0 < e.files.length then mkRat 8 10 else 0 }),
    ("typescript",
     { patterns := ["*.ts", "*.tsx", "*.d.ts"]
       configs := ["tsconfig.json", "tsconfig.*.json"]
       packageIndicators := ["typescript", "@types/"]
       confidence := fun e =>
         if "tsconfig.json" ∈ e.configs then 1
         else if 0 < e.packageIndicators.length then mkRat 9 10
         else if 0 < e.files.length then mkRat 7 10 else 0 }),
    ("python",
     { patterns := ["*.py"]
       configs := ["requirements.txt", "setup.py", "pyproject.toml", "Pipfile"]
       indicators := ["__init__.py", "manage.py"]
       confidence := fun e =>
         if 0 < e.configs.length then 1
         else if "manage.py" ∈ e.indicators then mkRat 95 100
         else if 5 < e.files.length then mkRat 8 10 else mkRat 6 10 }),
    ("java",
     { patterns := ["*.java"]
       configs := ["pom.xml", "build.gradle", "build.gradle.kts"]
       confidence := fun e =>
         if 0 < e.configs.length then 1
         else if 0 < e.files.length then mkRat 5 10 else 0 }),
    ("go",
     { patterns := ["*.go"]
       configs := ["go.mod", "go.sum"]
       confidence := fun e =>
         if "go.mod" ∈ e.configs then 1
         else if 0 < e.files.length then mkRat 6 10 else 0 }) ]

/-- Frontend framework detectors.  `componentPatterns` (react) and
`implies` (nextjs) are dead data: the evidence assembler only reads
`codePatterns`, so react's component patterns are never scanned. -/
def frontendDetectors : List (String × Detector) :=
  [ ("react",
     { dependencies := ["react", "react-dom"]
       devDependencies := ["@types/react", "@testing-library/react"]
       files := ["*.jsx", "*.tsx"]
       exclusiveWith := ["vue", "angular", "svelte"]
       confidence := fun e =>
         if e.isBackendOnly = false ∧ "react" ∈ e.dependencies then 1
         else if e.isBackendOnly = false ∧ "react-dom" ∈ e.dependencies then mkRat 95 100
         else if e.isBackendOnly = true then 0
         else 0 }),
    ("vue",
     { dependencies := ["vue", "vue@2", "vue@3"]
       files := ["*.vue"]
       configs := ["vue.config.js", "vite.config.js"]
       indicators := ["components/", "views/"]
       exclusiveWith := ["react", "angular", "svelte"]
       confidence := fun e =>
         if e.dependencies.any (fun d => strStarts d "vue") then 1
         else if 0 < e.files.length then mkRat 9 10 else 0 }),
    ("angular",
     { dependencies := ["@angular/core", "@angular/common"]
       files := ["*.component.ts", "*.module.ts", "*.service.ts"]
       configs := ["angular.json", ".angular-cli.json"]
       indicators := ["src/app/"]
       exclusiveWith := ["react", "vue", "svelte"]
       confidence := fun e =>
         if "@angular/core" ∈ e.dependencies then 1
         else if "angular.json" ∈ e.configs then mkRat 95 100 else 0 }),
    ("nextjs",
     { dependencies := ["next"]
       devDependencies := ["eslint-config-next"]
       scripts := ["next dev", "next build", "next start"]
       configs := ["next.config.js", "next.config.mjs", "next.config.ts"]
       directories := ["pages/", "app/", "public/"]
       confidence := fun e =>
         if "next" ∈ e.dependencies then 1
         else if 0 < e.scripts.length ∧ e.scripts.any (fun s => strContains s "next") then
           mkRat 95 100
         else if 0 < e.configs.length then mkRat 9 10 else 0 }) ]

/-- Backend framework detectors. -/
def backendDetectors : List (String × Detector) :=
  [ ("express",
     { dependencies := ["express"]
       relatedPackages := ["body-parser", "cors", "helmet", "morgan", "compression",
         "cookie-parser"]
       codePatterns := ["express()", "app.use(", "app.get(", "app.post(", "app.listen("]
       files := ["app.js", "server.js", "index.js"]
       exclusiveWith := ["fastify", "koa", "hapi"]
       confidence := fun e =>
         if "express" ∈ e.dependencies then 1
         else if 3 ≤ e.relatedPackages.length then mkRat 9 10
         else if 2 ≤ e.relatedPackages.length then mkRat 7 10
         else if 0 < e.codePatterns.length then mkRat 8 10 else 0 }),
    ("fastify",
     { dependencies := ["fastify"]
       codePatterns := ["fastify()", "fastify.register"]
       exclusiveWith := ["express", "koa", "hapi"]
       confidence := fun e =>
         if "fastify" ∈ e.dependencies then 1
         else if 0 < e.codePatterns.length then mkRat 7 10 else 0 }),
    ("koa",
     { dependencies := ["koa"]
       codePatterns := ["koa()", "koa2", "app.use"]
       relatedPackages := ["koa-router", "koa-bodyparser", "koa-cors"]
       exclusiveWith := ["express", "fastify", "hapi"]
       confidence := fun e =>
         if "koa" ∈ e.dependencies then 1
         else if 0 < e.codePatterns.length then mkRat 7 10 else 0 }),
    ("nestjs",
     { dependencies := ["@nestjs/core", "@nestjs/common"]
       files := ["*.controller.ts", "*.service.ts", "*.module.ts"]
       configs := ["nest-cli.json"]
       indicators := ["src/modules/", "src/controllers/"]
       confidence := fun e =>
         if "@nestjs/core" ∈ e.dependencies then 1
         else if "nest-cli.json" ∈ e.configs then mkRat 9 10
         else if 3 < e.files.length then mkRat 8 10 else 0 }),
    ("fastapi",
     { dependencies := ["fastapi"]
       relatedPackages := ["uvicorn", "starlette", "pydantic"]
       codePatterns := ["FastAPI()", "@app.get", "@app.post", "@app.put", "@app.delete"]
       files := ["main.py", "app.py", "**/main.py", "**/app.py"]
       configs := ["pyproject.toml", "requirements.txt"]
       codeImports := ["from fastapi", "import fastapi"]
       exclusiveWith := ["django", "flask"]
       confidence := fun e =>
         if "fastapi" ∈ e.dependencies then 1
         else if "uvicorn" ∈ e.relatedPackages ∧ "pydantic" ∈ e.relatedPackages then
           mkRat 95 100
         else if 0 < e.codePatterns.length then mkRat 9 10
         else if 0 < e.codeImports.length then mkRat 85 100 else 0 }),
    ("django",
     { dependencies := ["django", "Django"]
       relatedPackages := ["djangorestframework", "django-cors-headers", "psycopg2",
         "psycopg2-binary"]
       files := ["manage.py", "settings.py", "urls.py", "**/settings.py", "**/urls.py"]
       configs := ["django.conf", "requirements.txt", "pyproject.toml"]
       indicators := ["*/migrations/", "apps/", "settings/"]
       codeImports := ["from django", "import django", "django.conf"]
       exclusiveWith := ["fastapi", "flask"]
       confidence := fun e =>
         if "django" ∈ e.dependencies ∨ "Django" ∈ e.dependencies then 1
         else if "manage.py" ∈ e.files then mkRat 98 100
         else if e.indicators.any (fun i => e.indicators.contains i) then mkRat 95 100
         else if "djangorestframework" ∈ e.relatedPackages then mkRat 9 10 else 0 }),
    ("flask",
     { dependencies := ["flask", "Flask"]
       relatedPackages := ["flask-restful", "flask-cors", "flask-sqlalchemy", "gunicorn"]
       codePatterns := ["Flask(__name__)", "@app.route", "app = Flask"]
       files := ["app.py", "main.py", "run.py", "**/app.py"]
       configs := ["requirements.txt", "pyproject.toml"]
       codeImports := ["from flask", "import flask"]
       exclusiveWith := ["fastapi", "django"]
       confidence := fun e =>
         if "flask" ∈ e.dependencies ∨ "Flask" ∈ e.dependencies then 1
         else if 0 < e.codePatterns.length then mkRat 9 10
         else if 0 < e.codeImports.length then mkRat 85 100
         else if e.relatedPackages.any (fun p => ["flask-restful", "flask-cors"].contains p)
           then mkRat 8 10
         else 0 }) ]

/-- Database detectors.  `usage` (redis) and `envVars` are declared data;
note that the redis scoring function consults neither `dockerServices` nor
`connectionStrings` nor `envVars`. -/
def databaseDetectors : List (String × Detector) :=
  [ ("mongodb",
     { dependencies := ["mongodb", "mongoose"]
       connectionStrings := ["mongodb://", "mongodb+srv://"]
       dockerServices := ["mongo", "mongodb"]
       envVars := ["MONGO_URI", "MONGODB_URI", "DATABASE_URL"]
       confidence := fun e =>
         if "mongoose" ∈ e.dependencies then 1
         else if "mongodb" ∈ e.dependencies then mkRat 95 100
         else if 0 < e.dockerServices.length then mkRat 8 10
         else if 0 < e.connectionStrings.length then mkRat 9 10 else 0 }),
    ("postgresql",
     { dependencies := ["pg", "postgres", "typeorm", "sequelize", "prisma",
         "@prisma/client", "psycopg2", "psycopg2-binary", "psycopg", "asyncpg",
         "sqlmodel", "sqlalchemy"]
       connectionStrings := ["postgres://", "postgresql://"]
       dockerServices := ["postgres", "postgresql"]
       envVars := ["DATABASE_URL", "POSTGRES_DB", "PG_CONNECTION", "POSTGRESQL_URL"]
       confidence := fun e =>
         if "pg" ∈ e.dependencies then 1
         else if e.dependencies.any
             (fun d => ["psycopg2", "psycopg2-binary", "psycopg", "asyncpg"].contains d)
           then 1
         else if "sqlmodel" ∈ e.dependencies then mkRat 95 100
         else if "sqlalchemy" ∈ e.dependencies then mkRat 9 10
         else if "typeorm" ∈ e.dependencies then mkRat 9 10
         else if 0 < e.dockerServices.length then mkRat 85 100 else 0 }),
    ("mysql",
     { dependencies := ["mysql", "mysql2"]
       connectionStrings := ["mysql://"]
       dockerServices := ["mysql", "mariadb"]
       confidence := fun e =>
         if e.dependencies.any (fun d => strStarts d "mysql") then 1
         else if 0 < e.dockerServices.length then mkRat 8 10 else 0 }),
    ("redis",
     { dependencies := ["redis", "ioredis", "bull", "bee-queue"]
       connectionStrings := ["redis://"]
       dockerServices := ["redis"]
       confidence := fun e =>
         if "ioredis" ∈ e.dependencies then 1
         else if "redis" ∈ e.dependencies then mkRat 95 100
         else if "bull" ∈ e.dependencies then mkRat 9 10 else 0 }) ]

/-- Testing framework detectors.  `setupFiles` (jest), `testDirectory`
(mocha) and `type` (cypress, playwright) are dead data. -/
def testingDetectors : List (String × Detector) :=
  [ ("jest",
     { dependencies := ["jest", "@types/jest"]
       devDependencies := ["jest", "ts-jest", "babel-jest"]
       configs := ["jest.config.js", "jest.config.ts", "jest.config.json"]
       packageJsonConfig := some "jest"
       files := ["*.test.js", "*.test.ts", "*.spec.js", "*.spec.ts"]
       confidence := fun e =>
         if "jest" ∈ e.dependencies then 1
         else if 0 < e.configs.length then mkRat 95 100
         else if e.packageJsonConfig = true then mkRat 95 100
         else if 0 < e.files.length then mkRat 7 10 else 0 }),
    ("mocha",
     { dependencies := ["mocha"]
       devDependencies := ["mocha", "chai", "sinon"]
       configs := [".mocharc.js", ".mocharc.json", "mocha.opts"]
       files := ["*.test.js", "*.spec.js"]
       confidence := fun e =>
         if "mocha" ∈ e.dependencies then 1
         else if 0 < e.configs.length then mkRat 9 10 else 0 }),
    ("cypress",
     { dependencies := ["cypress"]
       configs := ["cypress.json", "cypress.config.js"]
       directories := ["cypress/integration", "cypress/e2e"]
       confidence := fun e =>
         if "cypress" ∈ e.dependencies then 1
         else if 0 < e.configs.length then mkRat 9 10 else 0 }),
    ("playwright",
     { dependencies := ["@playwright/test"]
       configs := ["playwright.config.js", "playwright.config.ts"]
       confidence := fun e =>
         if "@playwright/test" ∈ e.dependencies then 1
         else if 0 < e.configs.length then mkRat 9 10 else 0 }),
    ("pytest",
     { dependencies := ["pytest"]
       relatedPackages := ["pytest-cov", "pytest-asyncio", "pytest-mock", "httpx"]
       configs := ["pytest.ini", "pyproject.toml", "setup.cfg"]
       files := ["test_*.py", "*_test.py", "tests/*.py"]
       directories := ["tests/", "test/"]
       confidence := fun e =>
         if "pytest" ∈ e.dependencies then 1
         else if e.configs.any (fun c => ["pytest.ini", "pyproject.toml"].contains c) then
           mkRat 9 10
         else if 0 < e.files.length then mkRat 8 10
         else if 0 < e.directories.length then mkRat 7 10 else 0 }),
    ("unittest",
     { files := ["test_*.py", "*_test.py", "tests/*.py"]
       directories := ["tests/", "test/"]
       codePatterns := ["unittest.TestCase", "import unittest", "from unittest"]
       confidence := fun e =>
         if 0 < e.codePatterns.length then mkRat 9 10
         else if 0 < e.files.length ∧ 0 < e.directories.length then mkRat 7 10
         else if 0 < e.files.length then mkRat 5 10 else 0 }) ]

/-- Build tool detectors. -/
def buildToolDetectors : List (String × Detector) :=
  [ ("webpack",
     { dependencies := ["webpack", "webpack-cli"]
       configs := ["webpack.config.js", "webpack.config.ts"]
       confidence := fun e =>
         if "webpack" ∈ e.dependencies then 1
         else if 0 < e.configs.length then mkRat 8 10 else 0 }),
    ("vite",
     { dependencies := ["vite"]
       configs := ["vite.config.js", "vite.config.ts"]
       confidence := fun e =>
         if "vite" ∈ e.dependencies then 1
         else if 0 < e.configs.length then mkRat 9 10 else 0 }),
    ("poetry",
     { configs := ["pyproject.toml", "poetry.lock"]
       indicators := ["poetry.toml"]
       confidence := fun e =>
         if "poetry.lock" ∈ e.configs then 1
         else if "pyproject.toml" ∈ e.configs then mkRat 8 10 else 0 }),
    ("uv",
     { configs := ["pyproject.toml", "uv.lock"]
       indicators := [".python-version", "uv.toml"]
       confidence := fun e =>
         if "uv.lock" ∈ e.configs then 1
         else if ".python-version" ∈ e.indicators then mkRat 7 10 else 0 }),
    ("setuptools",
     { configs := ["setup.py", "setup.cfg", "pyproject.toml"]
       files := ["MANIFEST.in"]
       confidence := fun e =>
         if "setup.py" ∈ e.configs then 1
         else if "setup.cfg" ∈ e.configs then mkRat 9 10 else 0 }) ]

/-- Deployment detectors.  The deployment evidence assembler never
populates `patterns`, so the kubernetes 0.95 branch is dead. -/
def deploymentDetectors : List (String × Detector) :=
  [ ("docker",
     { files := ["Dockerfile", "docker-compose.yml", "docker-compose.yaml"]
       configs := [".dockerignore"]
       confidence := fun e =>
         if "Dockerfile" ∈ e.files then 1
         else if e.files.any (fun f => strContains f "docker-compose") then mkRat 95 100
         else 0 }),
    ("kubernetes",
     { files := ["k8s/", "kubernetes/"]
       patterns := ["kind: Deployment", "kind: Service", "kind: Pod"]
       configs := ["skaffold.yaml", "helm/Chart.yaml"]
       confidence := fun e =>
         if 0 < e.files.length then mkRat 9 10
         else if 0 < e.patterns.length then mkRat 95 100 else 0 }),
    ("githubActions",
     { files := [".github/workflows/*.yml", ".github/workflows/*.yaml"]
       confidence := fun e =>
         if 0 < e.files.length then 1 else 0 }) ]

/-- The static mutual-exclusion table (`this.mutualExclusions`), in
declaration order.  Note it only has keys `react`, `vue`, `angular`,
`express`, `jest`, `webpack`; the `exclusiveWith` sets declared on the
detector specs above are not registered here. -/
def mutualExclusions : List (String × List String) :=
  [ ("react", ["vue", "angular", "svelte"]),
    ("vue", ["react", "angular", "svelte"]),
    ("angular", ["react", "vue", "svelte"]),
    ("express", ["fastify", "koa", "hapi"]),
    ("jest", ["mocha", "jasmine", "ava"]),
    ("webpack", ["parcel"]) ]

/-! ## Stable descending sort by confidence

The source sorts with the comparator `(a, b) => b.confidence -
a.confidence` under JS's stable `Array.prototype.sort`; any stable
descending sort computes the same list.  `insertByConf` keeps an earlier
element in front of every later element of equal confidence. -/

/-- Insert a detection into a descending-sorted list, after strictly
greater entries and before equal or smaller ones (the inserted element is
the earlier one in the original list). -/
def insertByConf (d : Detection) : List Detection → List Detection
  | [] => [d]
  | x :: xs =>
    if d.confidence < x.confidence then x :: insertByConf d xs
    else d :: x :: xs

/-- Stable sort by descending confidence. -/
def sortByConfDesc : List Detection → List Detection
  | [] => []
  | x :: xs => insertByConf x (sortByConfDesc xs)

/-! ## Python dependency extraction (`readPythonDependencies`) -/

/-- Extraction of one `requirements.txt` line: trim, drop comments and
option lines, strip version specifiers and extras
(`cleaned.split(/[>=<~!\[]/)[0].trim()`). -/
def requirementName (line : String) : Option String :=
  let cleaned := trimStr line
  if cleaned ≠ "" ∧ strStarts cleaned "#" = false ∧ strStarts cleaned "-" = false then
    let name := trimStr (String.mk (takeUntilAny ['>', '=', '<', '~', '!', '['] cleaned.toList))
    if name ≠ "" then some name else none
  else none

/-- Model of `readPythonDependencies`: union (as an insertion-ordered set)
of the `pyproject.toml` extraction (the `FS.pyprojectDeps` oracle; the
source drives it with regular expressions over the `[project]`,
`[tool.uv]` and `[tool.poetry.dependencies]` sections) and the
`requirements.txt` extraction, embedded in full. -/
def readPythonDependencies (fs : FS) : List String :=
  let pyproject :=
    if fs.fileExists "pyproject.toml" then
      match fs.readFile "pyproject.toml" with
      | some _ => fs.pyprojectDeps
      | none => []
    else []
  let reqs :=
    if fs.fileExists "requirements.txt" then
      match fs.readFile "requirements.txt" with
      | some content => (splitLines content).filterMap requirementName
      | none => []
    else []
  dedupFirst (pyproject ++ reqs)

/-! ## Language detection (`detectLanguages`) -/

/-- Evidence assembly for one language detector.  The `indicators` field
of the evidence is initialised and never populated by the source, so the
python `manage.py` branch is dead.  The package-indicator branch requires
`'package.json' ∈ evidence.configs`, which never holds for the only
detector declaring `packageIndicators` (typescript), so the inner
re-read of `package.json` is also dead; it is embedded nonetheless. -/
def languageEvidence (fs : FS) (config : Detector) : Evidence :=
  let files := config.patterns.foldl (fun acc pat => acc ++ findFiles fs pat 100) []
  let configs := config.configs.filter fs.fileExists
  let packageIndicators :=
    if config.packageIndicators ≠ [] ∧ "package.json" ∈ configs then
      match fs.packageJson with
      | some pkg =>
        let allDeps := pkg.dependencies ++ pkg.devDependencies
        config.packageIndicators.filter (fun ind => allDeps.any (fun d => strContains d ind))
      | none => []
    else []
  { files := files, configs := configs, packageIndicators := packageIndicators }

/-- Scored language detections, before sorting: every language whose
confidence passes the `>= 0.7` acceptance check. -/
def detectLanguagesScored (fs : FS) : List Detection :=
  languageDetectors.filterMap fun p =>
    let ev := languageEvidence fs p.2
    let conf := p.2.confidence ev
    if accepts conf then some { name := p.1, confidence := conf, evidence := ev }
    else none

/-- Model of `detectLanguages`: accepted languages sorted by descending
confidence. -/
def detectLanguages (fs : FS) : List String :=
  (sortByConfDesc (detectLanguagesScored fs)).map Detection.name

/-! ## Project structure analysis (`analyzeProjectStructure`) -/

/-- The architecture record of the result. -/
structure Architecture where
  type : String
  patterns : List String
deriving DecidableEq, Repr

/-- The structural probe results. -/
structure ProjectStructure where
  hasApi : Bool
  hasControllers : Bool
  hasRoutes : Bool
  hasModels : Bool
  hasServices : Bool
  hasComponents : Bool
  hasPages : Bool
  hasViews : Bool
  hasPublic : Bool
  hasSrc : Bool
  hasTests : Bool
  hasDocker : Bool
  hasKubernetes : Bool
  architecture : Architecture
deriving DecidableEq, Repr

/-- Model of `analyzeProjectStructure`. -/
def analyzeProjectStructure (fs : FS) : ProjectStructure :=
  let archBase : Architecture :=
    if fs.fileExists "lerna.json" || fs.fileExists "turbo.json" ||
        fs.fileExists "rush.json" then
      { type := "monorepo", patterns := ["monorepo"] }
    else
      { type := "standard", patterns := [] }
  let arch : Architecture :=
    if fs.fileExists "docker-compose.yml" then
      match fs.readFile "docker-compose.yml" with
      | some content =>
        if 3 < countServiceLines content then
          { archBase with patterns := archBase.patterns ++ ["microservices"] }
        else archBase
      | none => archBase
    else archBase
  { hasApi := fs.dirExists "api"
    hasControllers := fs.dirExists "controllers"
    hasRoutes := fs.dirExists "routes"
    hasModels := fs.dirExists "models"
    hasServices := fs.dirExists "services"
    hasComponents := fs.dirExists "components" || fs.dirExists "src/components"
    hasPages := fs.dirExists "pages" || fs.dirExists "src/pages"
    hasViews := fs.dirExists "views" || fs.dirExists "src/views"
    hasPublic := fs.dirExists "public"
    hasSrc := fs.dirExists "src"
    hasTests := fs.dirExists "tests" || fs.dirExists "test" || fs.dirExists "__tests__"
    hasDocker := fs.fileExists "Dockerfile"
    hasKubernetes := fs.dirExists "k8s" || fs.dirExists "kubernetes"
    architecture := arch }

/-! ## Project type classification (`determineProjectType`) -/

/-- The weighted indicator totals.  `fullstack` is declared by the source
and never incremented. -/
structure Indicators where
  backendOnly : Nat := 0
  frontendOnly : Nat := 0
  fullstack : Nat := 0
  library : Nat := 0
  cli : Nat := 0
deriving DecidableEq, Repr

/-- The classifier output: discrete type, best-guess primary framework,
and the two gates. -/
structure ProjectType where
  type : String
  primary : String
  isBackendOnly : Bool
  isFrontendOnly : Bool
  scores : Indicators
deriving DecidableEq, Repr

/-- Model of `determineProjectType`.  The source calls
`readPythonDependencies` twice (once for scoring, once for the primary
framework); the function is pure, so the single binding is reused. -/
def determineProjectType (fs : FS) (structure0 : ProjectStructure)
    (packageData : Option PackageData) : ProjectType :=
  let base : Indicators := {}
  let base :=
    if structure0.hasApi || structure0.hasControllers || structure0.hasRoutes ||
        structure0.hasModels then
      { base with backendOnly := base.backendOnly + 3 }
    else base
  let base :=
    if structure0.hasComponents || structure0.hasPages || structure0.hasViews then
      { base with frontendOnly := base.frontendOnly + 3 }
    else base
  let base : Indicators :=
    match packageData with
    | some pkg =>
      let allDeps := pkg.dependencies ++ pkg.devDependencies
      let backendPackages := ["express", "fastify", "koa", "nestjs", "hapi", "mongoose",
        "typeorm", "sequelize"]
      let backendCount := (backendPackages.filter allDeps.contains).length
      let frontendPackages := ["react", "vue", "angular", "svelte", "next", "gatsby",
        "nuxt"]
      let frontendCount :=
        (frontendPackages.filter (fun p => allDeps.any (fun d => strContains d p))).length
      let withDeps := { base with
        backendOnly := base.backendOnly + backendCount * 2,
        frontendOnly := base.frontendOnly + frontendCount * 2 }
      let withCli :=
        if pkg.bin then { withDeps with cli := withDeps.cli + 5 } else withDeps
      if pkg.main ∧ structure0.hasApi = false ∧ structure0.hasComponents = false then
        { withCli with library := withCli.library + 3 }
      else withCli
    | none => base
  let pythonDeps := readPythonDependencies fs
  let pythonBackendPackages := ["fastapi", "django", "flask", "tornado", "aiohttp",
    "sanic"]
  let pythonBackendCount := (pythonBackendPackages.filter pythonDeps.contains).length
  let indicators : Indicators :=
    if 0 < pythonBackendCount then
      { base with backendOnly := base.backendOnly + pythonBackendCount * 3 }
    else base
  let tp : String × String :=
    if 3 < indicators.cli then ("cli-tool", "")
    else if 0 < indicators.backendOnly ∧ 0 < indicators.frontendOnly then
      ("full-stack-application", "")
    else if indicators.frontendOnly < indicators.backendOnly then
      let fromJs :=
        match packageData with
        | some pkg =>
          if "express" ∈ pkg.dependencies then "express"
          else if "fastify" ∈ pkg.dependencies then "fastify"
          else if "@nestjs/core" ∈ pkg.dependencies then "nestjs"
          else if "koa" ∈ pkg.dependencies then "koa"
          else ""
        | none => ""
      let primary :=
        if "fastapi" ∈ pythonDeps then "fastapi"
        else if "django" ∈ pythonDeps then "django"
        else if "flask" ∈ pythonDeps then "flask"
        else fromJs
      ("backend-api", primary)
    else if indicators.backendOnly < indicators.frontendOnly then
      let primary :=
        match packageData with
        | some pkg =>
          let deps := pkg.dependencies ++ pkg.devDependencies
          if "react" ∈ deps then "react"
          else if "vue" ∈ deps then "vue"
          else if "@angular/core" ∈ deps then "angular"
          else if "svelte" ∈ deps then "svelte"
          else ""
        | none => ""
      ("frontend-application", primary)
    else if 0 < indicators.library then ("library", "")
    else ("unknown", "")
  { type := tp.1
    primary := tp.2
    isBackendOnly := decide (0 < indicators.backendOnly ∧ indicators.frontendOnly = 0)
    isFrontendOnly := decide (0 < indicators.frontendOnly ∧ indicators.backendOnly = 0)
    scores := indicators }

/-! ## Framework detection (`detectFrameworks`) -/

/-- Evidence assembly for one framework detector (frontend or backend),
following the source's order: JS manifest dependencies, Python
dependencies, file globs, config files, directory indicators, then the
bounded content scan of the first three matched files. -/
def frameworkEvidence (fs : FS) (packageData : Option PackageData)
    (pythonDependencies : List String) (config : Detector) (pt : ProjectType) :
    Evidence :=
  let depsJs :=
    match packageData with
    | some pkg => config.dependencies.filter pkg.dependencies.contains
    | none => []
  let devDeps :=
    match packageData with
    | some pkg => config.devDependencies.filter pkg.devDependencies.contains
    | none => []
  let relatedJs :=
    match packageData with
    | some pkg =>
      config.relatedPackages.filter
        (fun p => pkg.dependencies.contains p || pkg.devDependencies.contains p)
    | none => []
  let scripts :=
    match packageData with
    | some pkg =>
      match pkg.scripts with
      | some vals =>
        config.scripts.filter (fun sc => vals.any (fun s => strContains s (firstWord sc)))
      | none => []
    | none => []
  let depsPy :=
    if pythonDependencies ≠ [] then config.dependencies.filter pythonDependencies.contains
    else []
  let relatedPy :=
    if pythonDependencies ≠ [] then
      config.relatedPackages.filter pythonDependencies.contains
    else []
  let files := config.files.foldl (fun acc pat => acc ++ findFiles fs pat 100) []
  let configs := config.configs.filter fs.fileExists
  let indicators := config.indicators.filter fs.dirExists
  let scan : List String × List String :=
    if (config.codePatterns ≠ [] ∨ config.codeImports ≠ []) ∧ files ≠ [] then
      let sampleFiles := files.take 3
      let found := sampleFiles.foldl
        (fun acc f =>
          match fs.readFile f with
          | some content =>
            (acc.1 ++ config.codePatterns.filter (fun pat => strContains content pat),
             acc.2 ++ config.codeImports.filter (fun imp => strContains content imp))
          | none => acc)
        ([], [])
      (dedupFirst found.1, dedupFirst found.2)
    else ([], [])
  { dependencies := depsJs ++ depsPy
    devDependencies := devDeps
    files := files
    configs := configs
    codePatterns := scan.1
    relatedPackages := relatedJs ++ relatedPy
    indicators := indicators
    scripts := scripts
    codeImports := scan.2
    isBackendOnly := pt.isBackendOnly
    isFrontendOnly := pt.isFrontendOnly }

/-- Scored framework detections, before sorting: every detector of the
given registry whose confidence passes the acceptance check. -/
def detectFrameworksScored (fs : FS) (detectors : List (String × Detector))
    (packageData : Option PackageData) (pt : ProjectType) : List Detection :=
  let pythonDependencies := readPythonDependencies fs
  detectors.filterMap fun p =>
    let ev := frameworkEvidence fs packageData pythonDependencies p.2 pt
    let conf := p.2.confidence ev
    if accepts conf then some { name := p.1, confidence := conf, evidence := ev }
    else none

/-- Model of `detectFrameworks`: accepted names sorted by descending
confidence. -/
def detectFrameworks (fs : FS) (detectors : List (String × Detector))
    (packageData : Option PackageData) (pt : ProjectType) : List String :=
  (sortByConfDesc (detectFrameworksScored fs detectors packageData pt)).map
    Detection.name

/-! ## Database detection (`detectDatabases`) -/

/-- Evidence assembly for one database detector: merged manifest
dependency keys, Python dependencies, the four known compose-file
locations scanned for `service:` / `image: service` substrings, then
`.env` / `.env.example` scanned for connection strings and environment
variable names (each later env file overwrites the previous assignment,
as in the source). -/
def databaseEvidence (fs : FS) (packageData : Option PackageData)
    (pythonDependencies : List String) (config : Detector) : Evidence :=
  let depsJs :=
    match packageData with
    | some pkg =>
      let allDeps := pkg.dependencies ++ pkg.devDependencies
      config.dependencies.filter allDeps.contains
    | none => []
  let depsPy :=
    if pythonDependencies ≠ [] then config.dependencies.filter pythonDependencies.contains
    else []
  let composeFiles := ["docker-compose.yml", "docker-compose.yaml",
    "docker/docker-compose.yml", "docker/docker-compose.yaml"]
  let dockerServices :=
    if config.dockerServices ≠ [] then
      dedupFirst (composeFiles.foldl
        (fun acc f =>
          if fs.fileExists f then
            match fs.readFile f with
            | some content =>
              acc ++ config.dockerServices.filter
                (fun srv => strContains content (srv ++ ":") ||
                  strContains content ("image: " ++ srv))
            | none => acc
          else acc)
        [])
    else []
  let envScan : List String × List String :=
    [".env", ".env.example"].foldl
      (fun st f =>
        if fs.fileExists f then
          match fs.readFile f with
          | some content =>
            (if config.connectionStrings ≠ [] then
               config.connectionStrings.filter (fun conn => strContains content conn)
             else st.1,
             if config.envVars ≠ [] then
               config.envVars.filter (fun v => strContains content v)
             else st.2)
          | none => st
        else st)
      ([], [])
  { dependencies := depsJs ++ depsPy
    connectionStrings := envScan.1
    dockerServices := dockerServices
    envVars := envScan.2 }

/-- Model of `detectDatabases`: accepted database names in registry order
(this category is not sorted by the source). -/
def detectDatabases (fs : FS) (packageData : Option PackageData) : List String :=
  let pythonDependencies := readPythonDependencies fs
  databaseDetectors.filterMap fun p =>
    if accepts (p.2.confidence (databaseEvidence fs packageData pythonDependencies p.2))
    then some p.1 else none

/-! ## Testing detection (`detectTesting`) -/

/-- Evidence assembly for one testing detector.  `relatedPackages` is only
assigned on the Python branch, mirroring the source; the file globs are
limited to 5 samples and the content scan to the first 2 files. -/
def testingEvidence (fs : FS) (packageData : Option PackageData)
    (pythonDependencies : List String) (config : Detector) : Evidence :=
  let depsJs :=
    match packageData with
    | some pkg =>
      config.dependencies.filter
        (fun d => pkg.dependencies.contains d || pkg.devDependencies.contains d)
    | none => []
  let devDeps :=
    match packageData with
    | some pkg => config.devDependencies.filter pkg.devDependencies.contains
    | none => []
  let packageJsonConfig :=
    match packageData, config.packageJsonConfig with
    | some pkg, some key => pkg.topKeys.contains key
    | _, _ => false
  let depsPy :=
    if pythonDependencies ≠ [] then config.dependencies.filter pythonDependencies.contains
    else []
  let relatedPy :=
    if pythonDependencies ≠ [] then
      config.relatedPackages.filter pythonDependencies.contains
    else []
  let configs := config.configs.filter fs.fileExists
  let directories := config.directories.filter fs.dirExists
  let files := config.files.foldl (fun acc pat => acc ++ findFiles fs pat 5) []
  let codePatterns :=
    if config.codePatterns ≠ [] ∧ files ≠ [] then
      dedupFirst ((files.take 2).foldl
        (fun acc f =>
          match fs.readFile f with
          | some content =>
            acc ++ config.codePatterns.filter (fun pat => strContains content pat)
          | none => acc)
        [])
    else []
  { dependencies := depsJs ++ depsPy
    devDependencies := devDeps
    configs := configs
    files := files
    directories := directories
    codePatterns := codePatterns
    relatedPackages := relatedPy
    packageJsonConfig := packageJsonConfig }

/-- Model of `detectTesting`: accepted test framework names in registry
order. -/
def detectTesting (fs : FS) (packageData : Option PackageData) : List String :=
  let pythonDependencies := readPythonDependencies fs
  testingDetectors.filterMap fun p =>
    if accepts (p.2.confidence (testingEvidence fs packageData pythonDependencies p.2))
    then some p.1 else none

/-! ## Build tool detection (`detectBuildTools`) -/

/-- Evidence assembly for one build tool detector: merged manifest
dependency keys, plus single-file existence checks for configs, files and
indicators. -/
def buildToolEvidence (fs : FS) (packageData : Option PackageData)
    (config : Detector) : Evidence :=
  let deps :=
    match packageData with
    | some pkg =>
      let allDeps := pkg.dependencies ++ pkg.devDependencies
      config.dependencies.filter allDeps.contains
    | none => []
  { dependencies := deps
    configs := config.configs.filter fs.fileExists
    files := config.files.filter fs.fileExists
    indicators := config.indicators.filter fs.fileExists }

/-- Model of `detectBuildTools`: accepted build tool names in registry
order. -/
def detectBuildTools (fs : FS) (packageData : Option PackageData) : List String :=
  buildToolDetectors.filterMap fun p =>
    if accepts (p.2.confidence (buildToolEvidence fs packageData p.2)) then some p.1
    else none

/-! ## Deployment detection (`detectDeployment`) -/

/-- Evidence assembly for one deployment detector: glob patterns are
searched, plain names are existence-checked; `patterns` evidence is never
populated. -/
def deploymentEvidence (fs : FS) (config : Detector) : Evidence :=
  let files := config.files.foldl
    (fun acc f =>
      if strContains f "*" then acc ++ findFiles fs f 100
      else if fs.fileExists f then acc ++ [f]
      else acc)
    []
  { files := files
    configs := config.configs.filter fs.fileExists }

/-- Model of `detectDeployment`: accepted deployment target names in
registry order. -/
def detectDeployment (fs : FS) : List String :=
  deploymentDetectors.filterMap fun p =>
    if accepts (p.2.confidence (deploymentEvidence fs p.2)) then some p.1 else none

/-! ## Targeted detection, conflict resolution, assembly -/

/-- The per-category detection results (`results` of
`performTargetedDetection`).  The `confidence` field of the source is an
always-empty object and is omitted. -/
structure DetectionResults where
  frontend : List String := []
  backend : List String := []
  databases : List String := []
  testing : List String := []
  buildTools : List String := []
  deployment : List String := []
  patterns : List String := []
deriving DecidableEq, Repr

/-- Model of `performTargetedDetection`: frontend detection is skipped
when `isBackendOnly`, backend detection when `isFrontendOnly`; the other
categories always run; `patterns` is assembled here, before conflict
resolution.  The `structure` argument is accepted and unused, as in the
source. -/
def performTargetedDetection (fs : FS) (pt : ProjectType)
    (packageData : Option PackageData) (structure0 : ProjectStructure) :
    DetectionResults :=
  let frontend :=
    if pt.isBackendOnly then [] else detectFrameworks fs frontendDetectors packageData pt
  let backend :=
    if pt.isFrontendOnly then [] else detectFrameworks fs backendDetectors packageData pt
  let databases := detectDatabases fs packageData
  let testing := detectTesting fs packageData
  let buildTools := detectBuildTools fs packageData
  let deployment := detectDeployment fs
  { frontend := frontend
    backend := backend
    databases := databases
    testing := testing
    buildTools := buildTools
    deployment := deployment
    patterns := frontend ++ backend ++ databases ++ testing ++ buildTools ++ deployment }

/-- One conflict-resolution category update: if the key technology is in
the list, remove all of its listed exclusions. -/
def applyExclusion (tech : String) (exclusions : List String) (l : List String) :
    List String :=
  if tech ∈ l then l.filter (fun t => !exclusions.contains t) else l

/-- One pass of `resolveConflicts` for a single table entry, applied to
the four categories the source iterates over. -/
def exclusionStep (acc : DetectionResults) (p : String × List String) :
    DetectionResults :=
  { acc with
    frontend := applyExclusion p.1 p.2 acc.frontend
    backend := applyExclusion p.1 p.2 acc.backend
    testing := applyExclusion p.1 p.2 acc.testing
    buildTools := applyExclusion p.1 p.2 acc.buildTools }

/-- Model of `resolveConflicts`: a shallow copy of the results with every
mutual-exclusion table entry applied in declaration order to the
categories `frontend`, `backend`, `testing`, `buildTools`.  `databases`,
`deployment` and `patterns` are untouched. -/
def resolveConflicts (r : DetectionResults) : DetectionResults :=
  mutualExclusions.foldl exclusionStep r

/-- Model of `detectPackageManagers`: lock-file existence checks. -/
def detectPackageManagers (fs : FS) : List String :=
  [("npm", "package-lock.json"), ("yarn", "yarn.lock"), ("pnpm", "pnpm-lock.yaml"),
    ("bun", "bun.lockb")].filterMap
    fun p => if fs.fileExists p.2 then some p.1 else none

/-- The final output structure.  The source's `confidence` field (always
the empty object `resolved.confidence = {}`) is omitted. -/
structure StackResult where
  languages : List String
  type : String
  primary : String
  frameworks : List String
  databases : List String
  testing : List String
  buildTools : List String
  deployment : List String
  patterns : List String
  architecture : Architecture
  packageManagers : List String
deriving DecidableEq, Repr

/-- Model of the `try` block of `detect`: the seven pipeline steps.  In
the embedding every probe is total, so this function is total; the
source's exception boundary is modelled separately by `detectCatch`. -/
def detect (fs : FS) : StackResult :=
  let languages := detectLanguages fs
  let projectAnalysis := analyzeProjectStructure fs
  let packageData := fs.packageJson
  let projectType := determineProjectType fs projectAnalysis packageData
  let detectionResults := performTargetedDetection fs projectType packageData
    projectAnalysis
  let resolved := resolveConflicts detectionResults
  let finalFrameworks := resolved.frontend ++ resolved.backend
  let primaryLanguage :=
    match languages with
    | [] => ""
    | l :: _ => l
  { languages := languages
    type := projectType.type
    primary := primaryLanguage
    frameworks := finalFrameworks
    databases := resolved.databases
    testing := resolved.testing
    buildTools := resolved.buildTools
    deployment := resolved.deployment
    patterns := resolved.patterns
    architecture := projectAnalysis.architecture
    packageManagers := detectPackageManagers fs }

/-- Model of `getEmptyResult`: the canonical empty result substituted on
the failure path. -/
def getEmptyResult : StackResult :=
  { languages := []
    type := "unknown"
    primary := ""
    frameworks := []
    databases := []
    testing := []
    buildTools := []
    deployment := []
    patterns := []
    architecture := { type := "unknown", patterns := [] }
    packageManagers := [] }

/-- Model of the exception boundary of `detect`: the outcome of the `try`
block is either a result (`Except.ok`) or a thrown error
(`Except.error`), and the `catch` substitutes `getEmptyResult` for the
latter, so the caller always receives a `StackResult`. -/
def detectCatch (outcome : Except String StackResult) : StackResult :=
  match outcome with
  | Except.ok r => r
  | Except.error _ => getEmptyResult

/-- The canonical dependency of each detector that declares manifest
dependencies: the manifest entry whose presence the scoring function's
first branch rewards with confidence 1.0 (spec §3 "Canonical
dependency").  Detectors whose scoring never branches on `dependencies`
(unittest, the Python build tools, the deployment targets, the language
detectors) have none. -/
def canonicalDep : String → Option String
  | "react" => some "react"
  | "vue" => some "vue"
  | "angular" => some "@angular/core"
  | "nextjs" => some "next"
  | "express" => some "express"
  | "fastify" => some "fastify"
  | "koa" => some "koa"
  | "nestjs" => some "@nestjs/core"
  | "fastapi" => some "fastapi"
  | "django" => some "django"
  | "flask" => some "flask"
  | "mongodb" => some "mongoose"
  | "postgresql" => some "pg"
  | "mysql" => some "mysql"
  | "redis" => some "ioredis"
  | "jest" => some "jest"
  | "mocha" => some "mocha"
  | "cypress" => some "cypress"
  | "playwright" => some "@playwright/test"
  | "pytest" => some "pytest"
  | "webpack" => some "webpack"
  | "vite" => some "vite"
  | _ => none

/-- All named detectors of every category, in registry order. -/
def allDetectors : List (String × Detector) :=
  frontendDetectors ++ backendDetectors ++ databaseDetectors ++ testingDetectors ++
    buildToolDetectors ++ deploymentDetectors

/-! ## Concrete projects used by counterexamples and witnesses -/

/-- The empty project: no files, no directories, no manifests. -/
def emptyFS : FS :=
  { fileExists := fun _ => false
    dirExists := fun _ => false
    readFile := fun _ => none
    globs := fun _ => []
    packageJson := none
    pyprojectDeps := [] }

/-- A compose file declaring a `redis:` service with a `image: redis`
line. -/
def composeRedis : String := "services:\n  redis:\n    image: redis:7\n"

/-- A project whose only file is a docker-compose file declaring a redis
service; no manifest of any kind. -/
def fsRedisOnly : FS :=
  { emptyFS with
    fileExists := fun p => p == "docker-compose.yml"
    readFile := fun p => if p == "docker-compose.yml" then some composeRedis else none }

/-- A backend project: a `package.json` depending on `express` and a
`controllers/` directory. -/
def fsExpressApi : FS :=
  { emptyFS with
    fileExists := fun p => p == "package.json"
    dirExists := fun p => p == "controllers"
    packageJson := some { dependencies := ["express"] } }

/-- A project whose manifest depends on both `fastify` and `koa`. -/
def fsFastifyKoa : FS :=
  { emptyFS with
    fileExists := fun p => p == "package.json"
    packageJson := some { dependencies := ["fastify", "koa"] } }

/-- A project whose manifest depends on both `jest` and `mocha`. -/
def fsJestMocha : FS :=
  { emptyFS with
    fileExists := fun p => p == "package.json"
    packageJson := some { dependencies := ["jest", "mocha"] } }

/-! ## Helper definitions and lemmas for the theorems -/

/-- A detector with no evidence requirements scoring 0 (used only as a
`headD` fallback in closed statements). -/
def dummyDetector : Detector := { confidence := fun _ => 0 }

/-- A default detection (used only as a `headD` fallback in closed
statements). -/
def dfltDetection : Detection := { name := "", confidence := 0, evidence := {} }

/-- A backend-only project type value (gates as produced for a pure
backend project). -/
def ptBackendOnly : ProjectType :=
  { type := "backend-api", primary := "", isBackendOnly := true, isFrontendOnly := false,
    scores := {} }

/-- The two gates cannot be derived true simultaneously from any indicator
totals. -/
theorem gatesAux (b f : Nat) :
    (decide (0 < b ∧ f = 0) && decide (0 < f ∧ b = 0)) = false := by
  by_cases hb : b = 0 <;> simp [hb]

/-- The per-category form of one `resolveConflicts` table step. -/
def catStep (l : List String) (p : String × List String) : List String :=
  applyExclusion p.1 p.2 l

theorem foldl_exclusionStep_frontend (tbl : List (String × List String))
    (r : DetectionResults) :
    (tbl.foldl exclusionStep r).frontend = tbl.foldl catStep r.frontend := by
  induction tbl generalizing r with
  | nil => rfl
  | cons p t ih => simp [List.foldl_cons, exclusionStep, catStep, ih]

theorem foldl_exclusionStep_backend (tbl : List (String × List String))
    (r : DetectionResults) :
    (tbl.foldl exclusionStep r).backend = tbl.foldl catStep r.backend := by
  induction tbl generalizing r with
  | nil => rfl
  | cons p t ih => simp [List.foldl_cons, exclusionStep, catStep, ih]

theorem foldl_exclusionStep_testing (tbl : List (String × List String))
    (r : DetectionResults) :
    (tbl.foldl exclusionStep r).testing = tbl.foldl catStep r.testing := by
  induction tbl generalizing r with
  | nil => rfl
  | cons p t ih => simp [List.foldl_cons, exclusionStep, catStep, ih]

theorem foldl_exclusionStep_buildTools (tbl : List (String × List String))
    (r : DetectionResults) :
    (tbl.foldl exclusionStep r).buildTools = tbl.foldl catStep r.buildTools := by
  induction tbl generalizing r with
  | nil => rfl
  | cons p t ih => simp [List.foldl_cons, exclusionStep, catStep, ih]

theorem foldl_exclusionStep_patterns (tbl : List (String × List String))
    (r : DetectionResults) :
    (tbl.foldl exclusionStep r).patterns = r.patterns := by
  induction tbl generalizing r with
  | nil => rfl
  | cons p t ih => simp [List.foldl_cons, exclusionStep, ih]

theorem foldl_exclusionStep_databases (tbl : List (String × List String))
    (r : DetectionResults) :
    (tbl.foldl exclusionStep r).databases = r.databases := by
  induction tbl generalizing r with
  | nil => rfl
  | cons p t ih => simp [List.foldl_cons, exclusionStep, ih]

theorem foldl_exclusionStep_deployment (tbl : List (String × List String))
    (r : DetectionResults) :
    (tbl.foldl exclusionStep r).deployment = r.deployment := by
  induction tbl generalizing r with
  | nil => rfl
  | cons p t ih => simp [List.foldl_cons, exclusionStep, ih]

theorem mem_applyExclusion {x t : String} {e l : List String}
    (h : x ∈ applyExclusion t e l) : x ∈ l := by
  unfold applyExclusion at h
  split at h
  · exact (List.mem_filter.mp h).1
  · exact h

theorem mem_catFold {x : String} (tbl : List (String × List String)) (l : List String)
    (h : x ∈ tbl.foldl catStep l) : x ∈ l := by
  induction tbl generalizing l with
  | nil => exact h
  | cons p t ih => exact mem_applyExclusion (ih _ h)

/-- After the table fold, a key and one of its exclusions never coexist in
a category list. -/
theorem catFold_excl (tbl : List (String × List String)) (l : List String)
    (p : String × List String) (b : String) (hp : p ∈ tbl) (hb : b ∈ p.2) :
    ¬(p.1 ∈ tbl.foldl catStep l ∧ b ∈ tbl.foldl catStep l) := by
  rintro ⟨h1, h2⟩
  obtain ⟨t1, t2, rfl⟩ := List.append_of_mem hp
  rw [List.foldl_append, List.foldl_cons] at h1 h2
  have h1' := mem_catFold t2 _ h1
  have h2' := mem_catFold t2 _ h2
  by_cases hm : p.1 ∈ t1.foldl catStep l
  · have h2'' : b ∈ (t1.foldl catStep l).filter (fun t => !p.2.contains t) := by
      simpa [catStep, applyExclusion, hm] using h2'
    have hbad := (List.mem_filter.mp h2'').2
    simp [hb] at hbad
  · have h1'' : p.1 ∈ t1.foldl catStep l := by
      simpa [catStep, applyExclusion, hm] using h1'
    exact hm h1''

/-! ## Claim theorems -/

/-- C1: the claim states that a compose file declaring a `redis:` service
(no manifest client dependency) yields a `redis` database detection at the
weaker docker-service confidence tier.  On the concrete compose-only
project the scan does collect the `redis` docker-service evidence, but the
redis scoring function ignores `dockerServices` entirely (its siblings
award 0.8–0.85 for it), computes confidence 0, and `detect` returns an
empty databases list — the code contradicts its own detector data and the
claim. -/
theorem c1_redis_docker_service_ignored :
    (databaseDetectors.filterMap fun p =>
      if p.1 = "redis" then
        some ((databaseEvidence fsRedisOnly none [] p.2).dockerServices,
          p.2.confidence (databaseEvidence fsRedisOnly none [] p.2))
      else none) = [(["redis"], 0)] ∧
    detectDatabases fsRedisOnly none = [] ∧
    (detect fsRedisOnly).databases = [] := by
  refine ⟨by decide, by decide, by decide⟩

/-- C2 counterexample: a backend project (express dependency, controllers
directory) is classified `backend-api` with `express` detected, yet the
final `primary` is the language name `javascript`, not the framework
name — refuting the claim that `primary` is a framework name. -/
theorem c2_counterexample_primary_is_language :
    (detect fsExpressApi).type = "backend-api" ∧
    (detect fsExpressApi).frameworks = ["express"] ∧
    (detect fsExpressApi).primary = "javascript" ∧
    "javascript" ≠ "express" := by
  refine ⟨by decide, by decide, by decide, by decide⟩

/-- C2 amended: the `primary` field of the final StackResult is always the
highest-confidence detected language (the head of `languages`), or empty
when no language is detected; the framework-name `primary` computed by the
project type classifier is not propagated into the final result. -/
theorem c2_amended_primary_is_top_language (fs : FS) :
    (detect fs).primary = (detectLanguages fs).headD "" := by
  simp only [detect]
  rcases h : detectLanguages fs with _ | ⟨a, l⟩ <;> simp [h]

/-- C3 counterexample: the detector spec for `fastify` registers `koa` in
its `exclusiveWith` set, yet a project depending on both fastify and koa
ends with both names in the final frameworks list — the conflict resolver
only consults the separate `mutualExclusions` table, which has no
`fastify` key. -/
theorem c3_counterexample_exclusiveWith_not_enforced :
    (detect fsFastifyKoa).frameworks = ["fastify", "koa"] ∧
    (backendDetectors.filterMap fun p =>
      if p.1 = "fastify" then some p.2.exclusiveWith else none) =
      [["express", "koa", "hapi"]] := by
  refine ⟨by decide, by decide⟩

/-- C3 amended: the exclusion invariant holds exactly for the pairs
registered in the `mutualExclusions` table: for every table entry and
every listed exclusion, the resolved results never contain both the key
and the exclusion in the same category (frontend, backend, testing,
buildTools).  Pairs declared only in a detector's `exclusiveWith` set are
not enforced. -/
theorem c3_amended_table_pairs_never_coexist (r : DetectionResults)
    (p : String × List String) (b : String) (hp : p ∈ mutualExclusions)
    (hb : b ∈ p.2) :
    ¬(p.1 ∈ (resolveConflicts r).frontend ∧ b ∈ (resolveConflicts r).frontend) ∧
    ¬(p.1 ∈ (resolveConflicts r).backend ∧ b ∈ (resolveConflicts r).backend) ∧
    ¬(p.1 ∈ (resolveConflicts r).testing ∧ b ∈ (resolveConflicts r).testing) ∧
    ¬(p.1 ∈ (resolveConflicts r).buildTools ∧ b ∈ (resolveConflicts r).buildTools) := by
  unfold resolveConflicts
  rw [foldl_exclusionStep_frontend, foldl_exclusionStep_backend,
    foldl_exclusionStep_testing, foldl_exclusionStep_buildTools]
  exact ⟨catFold_excl _ _ _ _ hp hb, catFold_excl _ _ _ _ hp hb,
    catFold_excl _ _ _ _ hp hb, catFold_excl _ _ _ _ hp hb⟩

/-- C3 witness: the amended theorem applied to a concrete resolution in
which react was accepted together with vue. -/
theorem c3_witness_react_excludes_vue :
    ("react", ["vue", "angular", "svelte"]) ∈ mutualExclusions ∧
    "vue" ∈ ["vue", "angular", "svelte"] ∧
    ¬("react" ∈ (resolveConflicts { frontend := ["react", "vue"] }).frontend ∧
      "vue" ∈ (resolveConflicts { frontend := ["react", "vue"] }).frontend) :=
  ⟨by decide, by decide,
    (c3_amended_table_pairs_never_coexist { frontend := ["react", "vue"] }
      ("react", ["vue", "angular", "svelte"]) "vue" (by decide) (by decide)).1⟩

/-- C4 counterexample: the vue scoring function ignores the
`isBackendOnly` flag — on an evidence bag asserting backend-only with a
vue dependency it returns 1, not 0, refuting the claim that every
frontend detector returns 0 under `isBackendOnly`. -/
theorem c4_counterexample_vue_scores_under_backendOnly :
    (Evidence.isBackendOnly { dependencies := ["vue"], isBackendOnly := true }) = true ∧
    (frontendDetectors.filterMap fun p =>
      if p.1 = "vue" then
        some (p.2.confidence { dependencies := ["vue"], isBackendOnly := true })
      else none) = [1] ∧
    (1 : ℚ) ≠ 0 := by
  refine ⟨by decide, by decide, by decide⟩

/-- C4 amended: the suppression is enforced at invocation, not inside the
scoring functions: `performTargetedDetection` never runs the frontend
detectors when `isBackendOnly` holds (the frontend list is empty) and
never runs the backend detectors when `isFrontendOnly` holds; among the
scoring functions only react itself checks `isBackendOnly`. -/
theorem c4_amended_gating_at_invocation (fs : FS) (pt : ProjectType)
    (pkg : Option PackageData) (st : ProjectStructure) :
    (pt.isBackendOnly = true → (performTargetedDetection fs pt pkg st).frontend = []) ∧
    (pt.isFrontendOnly = true → (performTargetedDetection fs pt pkg st).backend = []) := by
  constructor <;> intro h <;> simp [performTargetedDetection, h]

/-- C4 witness: the amended theorem applied to a backend-only project
type. -/
theorem c4_witness_frontend_skipped :
    (performTargetedDetection emptyFS ptBackendOnly none
      (analyzeProjectStructure emptyFS)).frontend = [] :=
  (c4_amended_gating_at_invocation emptyFS ptBackendOnly none
    (analyzeProjectStructure emptyFS)).1 rfl

/-- C5 counterexample: react's canonical dependency `react` is present in
the evidence bag, yet the scoring function returns 0 (not 1.0) because
the bag asserts `isBackendOnly` — the claim fails as universally stated
over evidence bags. -/
theorem c5_counterexample_react_backendOnly :
    canonicalDep "react" = some "react" ∧
    "react" ∈ (Evidence.dependencies { dependencies := ["react"], isBackendOnly := true }) ∧
    (frontendDetectors.filterMap fun p =>
      if p.1 = "react" then
        some (p.2.confidence { dependencies := ["react"], isBackendOnly := true })
      else none) = [0] ∧
    (0 : ℚ) ≠ 1 := by
  refine ⟨rfl, by decide, by decide, by decide⟩

/-- C5 amended: for every registered detector with a canonical manifest
dependency, an evidence bag containing that dependency yields confidence
exactly 1 provided the bag does not assert `isBackendOnly` (the one flag
react's first branch additionally checks; all other detectors' first
branches are unconditional). -/
theorem c5_amended_canonical_yields_one (p : String × Detector)
    (hp : p ∈ allDetectors) (c : String) (hc : canonicalDep p.1 = some c)
    (ev : Evidence) (hback : ev.isBackendOnly = false) (hd : c ∈ ev.dependencies) :
    p.2.confidence ev = 1 := by
  simp only [allDetectors, frontendDetectors, backendDetectors, databaseDetectors,
    testingDetectors, buildToolDetectors, deploymentDetectors, List.mem_append,
    List.mem_cons, List.not_mem_nil, or_false, or_assoc] at hp
  rcases hp with h|h|h|h|h|h|h|h|h|h|h|h|h|h|h|h|h|h|h|h|h|h|h|h|h|h|h|h|h
  all_goals subst h
  all_goals try (exact Option.noConfusion hc)
  all_goals injection hc with h2
  all_goals subst h2
  all_goals simp [hback, hd]
  all_goals intro hall
  all_goals exact absurd (hall _ hd) (by decide)

/-- C5 witness: the amended theorem applied to the react detector on an
evidence bag holding its canonical dependency. -/
theorem c5_witness_react_canonical :
    (frontendDetectors.headD ("", dummyDetector)).2.confidence
      { dependencies := ["react"] } = 1 :=
  c5_amended_canonical_yields_one (frontendDetectors.headD ("", dummyDetector))
    (by simp [allDetectors, frontendDetectors, List.headD_cons])
    "react" rfl { dependencies := ["react"] } rfl (by decide)

/-- C6 counterexample: on a project depending on both jest and mocha,
conflict resolution removes `mocha` from the testing list, yet `mocha`
still appears in `patterns` — so `patterns` is not the union of the final
category lists. -/
theorem c6_counterexample_removed_name_in_patterns :
    "mocha" ∈ (detect fsJestMocha).patterns ∧
    "mocha" ∉ (detect fsJestMocha).frameworks ∧
    "mocha" ∉ (detect fsJestMocha).databases ∧
    "mocha" ∉ (detect fsJestMocha).testing ∧
    "mocha" ∉ (detect fsJestMocha).buildTools ∧
    "mocha" ∉ (detect fsJestMocha).deployment := by
  refine ⟨by decide, by decide, by decide, by decide, by decide, by decide⟩

/-- C6 amended: `patterns` is the union (concatenation) of the
pre-conflict-resolution category lists: it is assembled inside
`performTargetedDetection` and conflict resolution never touches it, so a
name removed by conflict resolution can remain in `patterns`. -/
theorem c6_amended_patterns_pre_resolution :
    (∀ r : DetectionResults, (resolveConflicts r).patterns = r.patterns) ∧
    (∀ (fs : FS) (pt : ProjectType) (pkg : Option PackageData)
      (st : ProjectStructure),
      (performTargetedDetection fs pt pkg st).patterns =
        (performTargetedDetection fs pt pkg st).frontend ++
        (performTargetedDetection fs pt pkg st).backend ++
        (performTargetedDetection fs pt pkg st).databases ++
        (performTargetedDetection fs pt pkg st).testing ++
        (performTargetedDetection fs pt pkg st).buildTools ++
        (performTargetedDetection fs pt pkg st).deployment) ∧
    (∀ fs : FS, (detect fs).patterns =
      (performTargetedDetection fs
        (determineProjectType fs (analyzeProjectStructure fs) fs.packageJson)
        fs.packageJson (analyzeProjectStructure fs)).patterns) := by
  refine ⟨fun r => ?_, fun fs pt pkg st => rfl, fun fs => ?_⟩
  · unfold resolveConflicts
    exact foldl_exclusionStep_patterns _ _
  · simp only [detect]
    unfold resolveConflicts
    exact foldl_exclusionStep_patterns _ _

/-- C7: every detection retained by the framework scorer or the language
scorer has confidence at least the acceptance threshold 0.7, and the
acceptance check itself accepts exactly 0.70 while rejecting 0.69. -/
theorem c7_acceptance_threshold :
    (∀ (fs : FS) (detectors : List (String × Detector)) (pkg : Option PackageData)
      (pt : ProjectType) (d : Detection),
      d ∈ detectFrameworksScored fs detectors pkg pt → mkRat 7 10 ≤ d.confidence) ∧
    (∀ (fs : FS) (d : Detection),
      d ∈ detectLanguagesScored fs → mkRat 7 10 ≤ d.confidence) ∧
    accepts (mkRat 70 100) = true ∧ accepts (mkRat 69 100) = false := by
  refine ⟨?_, ?_, by decide, by decide⟩
  · intro fs detectors pkg pt d hd
    simp only [detectFrameworksScored, List.mem_filterMap] at hd
    obtain ⟨a, -, ha⟩ := hd
    split at ha
    · rename_i h
      cases ha
      exact of_decide_eq_true h
    · cases ha
  · intro fs d hd
    simp only [detectLanguagesScored, List.mem_filterMap] at hd
    obtain ⟨a, -, ha⟩ := hd
    split at ha
    · rename_i h
      cases ha
      exact of_decide_eq_true h
    · cases ha

/-- C7 witness: the theorem applied to concrete accepted detections (the
fastify detection of the fastify-koa project, and the javascript
detection of the express project). -/
theorem c7_witness_concrete_detections :
    mkRat 7 10 ≤ ((detectFrameworksScored fsFastifyKoa backendDetectors
      fsFastifyKoa.packageJson ptBackendOnly).headD dfltDetection).confidence ∧
    mkRat 7 10 ≤ ((detectLanguagesScored fsExpressApi).headD dfltDetection).confidence :=
  ⟨c7_acceptance_threshold.1 fsFastifyKoa backendDetectors fsFastifyKoa.packageJson
      ptBackendOnly _ (by decide),
    c7_acceptance_threshold.2.1 fsExpressApi _ (by decide)⟩

/-- C8: the exception boundary never lets a failure escape: an error
outcome is replaced by the canonical empty result, whose list fields are
all empty and whose type is "unknown"; a successful outcome is returned
unchanged. -/
theorem c8_detect_never_raises :
    (∀ e : String, detectCatch (Except.error e) = getEmptyResult) ∧
    getEmptyResult.languages = [] ∧ getEmptyResult.frameworks = [] ∧
    getEmptyResult.databases = [] ∧ getEmptyResult.testing = [] ∧
    getEmptyResult.buildTools = [] ∧ getEmptyResult.deployment = [] ∧
    getEmptyResult.patterns = [] ∧ getEmptyResult.packageManagers = [] ∧
    getEmptyResult.architecture.patterns = [] ∧ getEmptyResult.primary = "" ∧
    getEmptyResult.type = "unknown" ∧
    (∀ r : StackResult, detectCatch (Except.ok r) = r) :=
  ⟨fun _ => rfl, rfl, rfl, rfl, rfl, rfl, rfl, rfl, rfl, rfl, rfl, rfl, fun _ => rfl⟩

/-- C9: the two gates derived by the project type classifier are never
simultaneously true, for any project, structure and manifest. -/
theorem c9_gates_never_both (fs : FS) (st : ProjectStructure)
    (pkg : Option PackageData) :
    ((determineProjectType fs st pkg).isBackendOnly &&
      (determineProjectType fs st pkg).isFrontendOnly) = false := by
  simp only [determineProjectType]
  exact gatesAux _ _

/-- The non-failure pipeline only produces `standard` or `monorepo`
architecture types. -/
theorem archType_analyze (fs : FS) :
    (analyzeProjectStructure fs).architecture.type = "standard" ∨
    (analyzeProjectStructure fs).architecture.type = "monorepo" := by
  simp only [analyzeProjectStructure]
  repeat' split
  all_goals simp

/-- C10: the empty result substituted on the internal-failure path has
architecture type "unknown", a value the successful path never produces:
every successfully computed result has architecture type "standard" or
"monorepo". -/
theorem c10_failure_architecture_outside_enum :
    getEmptyResult.architecture.type = "unknown" ∧
    ("unknown" ≠ "standard" ∧ "unknown" ≠ "monorepo") ∧
    ∀ fs : FS, (detect fs).architecture.type = "standard" ∨
      (detect fs).architecture.type = "monorepo" := by
  refine ⟨rfl, ⟨by decide, by decide⟩, fun fs => ?_⟩
  have harch : (detect fs).architecture = (analyzeProjectStructure fs).architecture := rfl
  rw [harch]
  exact archType_analyze fs
